import Mathlib

/-!
Shallow embedding of the PhotoSearch asynchronous processing worker
(the Express endpoint `POST /tasks/process`, together with its helpers
`truncate`, `getAttempt`, `markError` and `retryOrFail`, and the two SQL
updates it issues against the `photos` table).

Modelling conventions:
* The `photos` table is a `List PhotoRow`; SQL `update ... where` is a
  `List.map` of a per-row update function, and the reported row count is
  `List.countP` of the `where` predicate over the state the update runs on.
* Timestamps are `Int` (milliseconds); `now()` is supplied by the
  environment oracle as `dbNow`.
* External capability calls (GCS `exists`/`download`/`save`, `exifr.parse`,
  `sharp.metadata`/`toBuffer`) are oracle inputs of type `Except Unit _`:
  `.error ()` models the call throwing, which the handler's top-level
  `try/catch` routes to `retryOrFail "unhandled_exception"` except for
  `exifr.parse`, which has its own local catch.
* HTTP responses are status codes: `204` (`res.status(204).send()`,
  acknowledge) and `500` (`res.status(500).send('retry')`, retry signal).
* Every blob-store or record-store access appends an `Effect` to a trace,
  in the order the calls are issued.
* To express the commit-time race the spec discusses, the core runs against
  two snapshots: `dbLoad` (what the initial `select` sees) and `dbWrite`
  (what the single mutating statement runs against). The sequential
  endpoint instantiates both with the same state.
-/

namespace PhotoSearch

/-- A value found at `DateTimeOriginal` / `CreateDate` / `ModifyDate` in the
parsed EXIF bag: a `Date` instance with a valid or NaN time, a string that
`new Date(...)` does or does not parse, or some other value. -/
inductive DateVal where
  | validDate (t : Int)
  | invalidDate
  | parseableStr (t : Int)
  | unparseableStr
  | otherVal
deriving Repr, DecidableEq

/-- The structured bag returned by `exifr.parse`, restricted to the three
properties the worker reads. -/
structure ExifBag where
  dateTimeOriginal : Option DateVal
  createDate : Option DateVal
  modifyDate : Option DateVal
deriving Repr, DecidableEq

/-- Result of `sharp(...).metadata()`: `none` models a field whose
`typeof` is not `'number'`. -/
structure SharpMeta where
  width : Option Int
  height : Option Int
deriving Repr, DecidableEq

/-- One row of the `photos` table (the columns the worker reads or
writes). `status` is stored as a string, as in the database. -/
structure PhotoRow where
  id : Int
  status : String
  gcs_bucket : Option String
  gcs_object : Option String
  uploaded_at : Option Int
  exif_json : Option ExifBag
  taken_at : Option Int
  width : Option Int
  height : Option Int
  thumb_bucket : Option String
  thumb_object : Option String
  processed_at : Option Int
  processing_ms : Option Int
  processed_attempt : Option Int
  error_reason : Option String
  error_at : Option Int
deriving Repr, DecidableEq

/-- Worker configuration: `GCS_BUCKET` (may be unset) and `MAX_ATTEMPTS`. -/
structure Config where
  bucketDefault : Option String
  maxAttempts : Int
deriving Repr, DecidableEq

/-- Oracle for the external capability calls and generated values of one
invocation. `.error ()` means the corresponding call throws. -/
structure Env where
  existsR : Except Unit Bool
  downloadR : Except Unit Unit
  exifR : Except Unit (Option ExifBag)
  metaR : Except Unit SharpMeta
  thumbR : Except Unit Unit
  saveR : Except Unit Unit
  thumbObject : String
  dbNow : Int

/-- The fields of a successfully zod-parsed Pub/Sub envelope that the
handler goes on to use: the optional `deliveryAttempt` and the result of
base64-decoding + `JSON.parse`-ing `message.data` and reading
`Number(payload?.photoId)` from it (`.error ()` = decode throws; `none` =
the id is not a finite number). -/
structure EnvData where
  deliveryAttempt : Option Int
  payloadR : Except Unit (Option Int)
deriving Repr

/-- The inbound request: the zod envelope parse result and the
`x-goog-delivery-attempt` header when present and finite. -/
structure ReqModel where
  envelopeR : Except Unit EnvData
  headerAttempt : Option Int
deriving Repr

/-- A side-effecting call against the blob store or the record store. -/
inductive Effect where
  | dbSelect
  | gcsExists
  | gcsDownload
  | gcsSaveThumb
  | dbCommit
  | dbMarkError
deriving Repr, DecidableEq

/-- Outcome of one invocation: HTTP status, final table state, and the
trace of side-effecting calls in issue order. -/
structure RunResult where
  resp : Nat
  db : List PhotoRow
  effects : List Effect
deriving Repr, DecidableEq

/-- `truncate(s, n)`: `s` if it fits, else the first `n-1` characters
followed by a single ellipsis character. -/
def truncate (s : String) (n : Nat) : String :=
  if s.length ≤ n then s else s.take (n - 1) ++ "…"

/-- JS falsiness of a `string | undefined` value: `undefined` and the empty
string are falsy. -/
def strFalsy : Option String → Bool
  | none => true
  | some s => s == ""

/-- The body fallback of `getAttempt`: use `deliveryAttempt` when it is a
finite number greater than zero, else default to 1. -/
def getAttemptBody : Option Int → Int
  | some v => if 0 < v then v else 1
  | none => 1

/-- `getAttempt`: prefer the `x-goog-delivery-attempt` header when finite
and positive, else the envelope `deliveryAttempt`, else 1. -/
def getAttempt (headerAttempt bodyAttempt : Option Int) : Int :=
  match headerAttempt with
  | some h => if 0 < h then h else getAttemptBody bodyAttempt
  | none => getAttemptBody bodyAttempt

/-- The `??` chain `DateTimeOriginal ?? CreateDate ?? ModifyDate`: first
non-nullish value. -/
def firstSome (a b c : Option DateVal) : Option DateVal :=
  match a with
  | some v => some v
  | none =>
    match b with
    | some v => some v
    | none => c

/-- The taken-at derivation from the chosen value: a valid `Date` wins;
a string that parses wins; anything else yields null. -/
def dateValToTakenAt : Option DateVal → Option Int
  | some (.validDate t) => some t
  | some (.parseableStr t) => some t
  | _ => none

/-- `takenAt` derived from a (possibly nullish) parse result. -/
def exifTakenAt : Option ExifBag → Option Int
  | none => none
  | some bag => dateValToTakenAt (firstSome bag.dateTimeOriginal bag.createDate bag.modifyDate)

/-- The load query `select ... from photos where id = $1` followed by
`r.rows[0]`: the first row whose id matches. -/
def selectRow (photoId : Int) : List PhotoRow → Option PhotoRow
  | [] => none
  | r :: rest => if r.id == photoId then some r else selectRow photoId rest

/-- The per-row effect of `markError`'s SQL update: rows are matched by id
alone; a matched row has its status overwritten to ERROR, the truncated
reason and the error timestamp stored, and `processed_attempt` raised to
`greatest(coalesce(processed_attempt, 0), attempt)`. -/
def markErrorRow (photoId : Int) (reason : String) (attempt now : Int)
    (r : PhotoRow) : PhotoRow :=
  if r.id == photoId then
    { r with
      status := "ERROR"
      error_reason := some (truncate reason 300)
      error_at := some now
      processed_attempt := some (max (r.processed_attempt.getD 0) attempt) }
  else r

/-- `markError(reason)`: the unconditional-by-status ERROR update applied
to the table. -/
def markError (photoId : Int) (reason : String) (attempt now : Int)
    (db : List PhotoRow) : List PhotoRow :=
  db.map (markErrorRow photoId reason attempt now)

/-- The `where` clause of the success commit:
`p.id = $1 and p.status = 'UPLOADED' and p.uploaded_at is not null`,
evaluated atomically with the write. -/
def commitCond (photoId : Int) (r : PhotoRow) : Bool :=
  r.id == photoId && r.status == "UPLOADED" && r.uploaded_at.isSome

/-- The values the success commit writes (computed before the update). -/
structure CommitFields where
  exif_json : Option ExifBag
  taken_at : Option Int
  width : Option Int
  height : Option Int
  thumb_bucket : String
  thumb_object : String
  attempt : Int
  now : Int
deriving Repr, DecidableEq

/-- The per-row effect of the success commit: rows passing `commitCond`
receive the PROCESSED fields, `processing_ms` as the span from
`uploaded_at` to commit time, `processed_attempt` raised to
`greatest(coalesce(processed_attempt, 0), $8)`, and the error fields
cleared; all other rows are untouched. -/
def commitRow (photoId : Int) (f : CommitFields) (r : PhotoRow) : PhotoRow :=
  if commitCond photoId r then
    { r with
      status := "PROCESSED"
      exif_json := f.exif_json
      taken_at := f.taken_at
      width := f.width
      height := f.height
      thumb_bucket := some f.thumb_bucket
      thumb_object := some f.thumb_object
      processed_at := some f.now
      processing_ms := some (f.now - r.uploaded_at.getD 0)
      processed_attempt := some (max (r.processed_attempt.getD 0) f.attempt)
      error_reason := none
      error_at := none }
  else r

/-- The success commit as a table update. -/
def commitUpdate (photoId : Int) (f : CommitFields) (db : List PhotoRow) :
    List PhotoRow :=
  db.map (commitRow photoId f)

/-- `rowCount` reported by the success commit: the number of rows of the
state it ran against that satisfied its `where` clause. -/
def commitRowCount (photoId : Int) (db : List PhotoRow) : Nat :=
  db.countP (commitCond photoId)

/-- `retryOrFail(reason)`: below the attempt cap, return 500 so the
transport redelivers, touching nothing; at or above the cap, run
`markError` and acknowledge with 204. -/
def retryOrFail (cfg : Config) (photoId attempt now : Int) (reason : String)
    (db : List PhotoRow) (effs : List Effect) : RunResult :=
  if attempt < cfg.maxAttempts then
    { resp := 500, db := db, effects := effs }
  else
    { resp := 204
      db := markError photoId reason attempt now db
      effects := effs ++ [.dbMarkError] }

/-- The expression `row.gcs_bucket ?? BUCKET_DEFAULT`. -/
def bucketNameOf (cfg : Config) (row : PhotoRow) : Option String :=
  match row.gcs_bucket with
  | some b => some b
  | none => cfg.bucketDefault

/-- The `exifJson` binding after the guarded `exifr.parse` call: null when
the call throws, otherwise whatever the call returned (possibly nullish). -/
def exifJsonOf (env : Env) : Option ExifBag :=
  match env.exifR with
  | .error _ => none
  | .ok bag => bag

/-- The `takenAt` binding: null when `exifr.parse` throws, otherwise the
taken-at derivation from the parse result. -/
def takenAtOf (env : Env) : Option Int :=
  match env.exifR with
  | .error _ => none
  | .ok bag => exifTakenAt bag

/-- The capability pipeline of the handler, entered once the load-time
guards pass: existence check, download, best-effort EXIF extraction,
`sharp` metadata and thumbnail encode, thumbnail upload, then the
conditional commit against `dbWrite`. A throwing call (other than EXIF
extraction, which is caught locally) falls to the top-level catch, i.e.
`retryOrFail "unhandled_exception"`. -/
def processCaps (cfg : Config) (photoId attempt : Int) (env : Env)
    (bucketName : Option String) (dbWrite : List PhotoRow) : RunResult :=
  let effs1 : List Effect := [.dbSelect, .gcsExists]
  match env.existsR with
  | .error _ =>
    retryOrFail cfg photoId attempt env.dbNow "unhandled_exception" dbWrite effs1
  | .ok ex =>
    if !ex then
      retryOrFail cfg photoId attempt env.dbNow "gcs_object_missing" dbWrite effs1
    else
      let effs2 := effs1 ++ [Effect.gcsDownload]
      match env.downloadR with
      | .error _ =>
        retryOrFail cfg photoId attempt env.dbNow "unhandled_exception" dbWrite effs2
      | .ok _ =>
        match env.metaR with
        | .error _ =>
          retryOrFail cfg photoId attempt env.dbNow "unhandled_exception" dbWrite effs2
        | .ok meta =>
          match env.thumbR with
          | .error _ =>
            retryOrFail cfg photoId attempt env.dbNow "unhandled_exception" dbWrite effs2
          | .ok _ =>
            let effs3 := effs2 ++ [Effect.gcsSaveThumb]
            match env.saveR with
            | .error _ =>
              retryOrFail cfg photoId attempt env.dbNow "unhandled_exception" dbWrite effs3
            | .ok _ =>
              let f : CommitFields :=
                { exif_json := exifJsonOf env
                  taken_at := takenAtOf env
                  width := meta.width
                  height := meta.height
                  thumb_bucket := bucketName.getD ""
                  thumb_object := env.thumbObject
                  attempt := attempt
                  now := env.dbNow }
              { resp := 204
                db := commitUpdate photoId f dbWrite
                effects := effs3 ++ [Effect.dbCommit] }

/-- The body of `POST /tasks/process` after envelope decoding: load the
row from `dbLoad`, apply the guards, call the capabilities, and issue at
most one mutating statement against `dbWrite`. The sequential handler
passes the same state for both. -/
def processPhoto (cfg : Config) (photoId attempt : Int) (env : Env)
    (dbLoad dbWrite : List PhotoRow) : RunResult :=
  let effs0 : List Effect := [.dbSelect]
  match selectRow photoId dbLoad with
  | none => { resp := 204, db := dbWrite, effects := effs0 }
  | some row =>
    if row.status == "PROCESSED" || row.status == "ERROR" then
      { resp := 204, db := dbWrite, effects := effs0 }
    else if row.status != "UPLOADED" || row.uploaded_at.isNone then
      retryOrFail cfg photoId attempt env.dbNow "row_not_uploaded" dbWrite effs0
    else
      let bucketName : Option String := bucketNameOf cfg row
      let objectPath : Option String := row.gcs_object
      if strFalsy bucketName || strFalsy objectPath then
        { resp := 204
          db := markError photoId "missing_gcs_fields" attempt env.dbNow dbWrite
          effects := effs0 ++ [.dbMarkError] }
      else
        processCaps cfg photoId attempt env bucketName dbWrite

/-- The full `POST /tasks/process` handler: envelope parse, attempt
resolution, payload decode, photo-id check, then the processing core run
against a single table state. -/
def tasksProcess (cfg : Config) (req : ReqModel) (env : Env)
    (db : List PhotoRow) : RunResult :=
  match req.envelopeR with
  | .error _ => { resp := 204, db := db, effects := [] }
  | .ok ed =>
    let attempt := getAttempt req.headerAttempt ed.deliveryAttempt
    match ed.payloadR with
    | .error _ => { resp := 204, db := db, effects := [] }
    | .ok none => { resp := 204, db := db, effects := [] }
    | .ok (some photoId) => processPhoto cfg photoId attempt env db db

/-- Characterization of the capability-failure conditions that the handler
classifies as retryable, in the order the calls are issued: the existence
check throwing or reporting `false`, or the download, the `sharp` metadata
read, the thumbnail encode, or the thumbnail upload throwing. -/
def capFail (env : Env) : Bool :=
  match env.existsR with
  | .error _ => true
  | .ok ex =>
    if !ex then true
    else
      match env.downloadR with
      | .error _ => true
      | .ok _ =>
        match env.metaR with
        | .error _ => true
        | .ok _ =>
          match env.thumbR with
          | .error _ => true
          | .ok _ =>
            match env.saveR with
            | .error _ => true
            | .ok _ => false

/-- Whether an invocation of the post-decode core hits a retryable failure:
the row exists and is not terminal, and either the UPLOADED precondition
fails, or (the location fields being present) some capability call fails. -/
def coreRetryable (cfg : Config) (photoId : Int) (env : Env)
    (dbLoad : List PhotoRow) : Bool :=
  match selectRow photoId dbLoad with
  | none => false
  | some row =>
    if row.status == "PROCESSED" || row.status == "ERROR" then false
    else if row.status != "UPLOADED" || row.uploaded_at.isNone then true
    else if strFalsy (bucketNameOf cfg row) || strFalsy row.gcs_object then false
    else capFail env

/-- Whether a full invocation of the endpoint hits a retryable failure:
the envelope and payload decode, the id is numeric, and the core hits a
retryable failure. -/
def retryableFailure (cfg : Config) (req : ReqModel) (env : Env)
    (db : List PhotoRow) : Bool :=
  match req.envelopeR with
  | .error _ => false
  | .ok ed =>
    match ed.payloadR with
    | .error _ => false
    | .ok none => false
    | .ok (some photoId) => coreRetryable cfg photoId env db

/-- The delivery-attempt number the handler resolves for a request (1 when
the envelope never parses, matching `getAttempt`'s default). -/
def jobAttempt (req : ReqModel) : Int :=
  match req.envelopeR with
  | .error _ => 1
  | .ok ed => getAttempt req.headerAttempt ed.deliveryAttempt

/-- Projection used to compare `processed_attempt` across table states
index by index. -/
def paOf : Option PhotoRow → Int
  | none => 0
  | some r => r.processed_attempt.getD 0

/-! Concrete fixtures mirroring the scenario in the spec (record 42 in
UPLOADED status with a stored bucket and object path). -/

/-- An UPLOADED row ready for processing. -/
def rowU : PhotoRow :=
  { id := 42, status := "UPLOADED", gcs_bucket := some "b"
    gcs_object := some "uploads/x.jpg", uploaded_at := some 1000
    exif_json := none, taken_at := none, width := none, height := none
    thumb_bucket := none, thumb_object := none, processed_at := none
    processing_ms := none, processed_attempt := none, error_reason := none
    error_at := none }

/-- The same row already PROCESSED. -/
def rowP : PhotoRow :=
  { rowU with status := "PROCESSED" }

/-- The same row with the object path missing. -/
def rowNoObj : PhotoRow :=
  { rowU with gcs_object := none }

/-- A sample configuration with the spec default cap of 5 attempts. -/
def cfgX : Config :=
  { bucketDefault := some "default-bucket", maxAttempts := 5 }

/-- An environment in which every capability call succeeds. -/
def envOK : Env :=
  { existsR := .ok true, downloadR := .ok ()
    exifR := .ok (some { dateTimeOriginal := some (.validDate 777)
                         createDate := none, modifyDate := none })
    metaR := .ok { width := some 800, height := some 600 }
    thumbR := .ok (), saveR := .ok ()
    thumbObject := "thumbnails/2026-10-12/42_ab.jpg", dbNow := 5000 }

/-- The same environment with EXIF extraction throwing. -/
def envExifFail : Env :=
  { envOK with exifR := .error () }

/-! Helper lemmas about the embedded operations. -/

theorem selectRow_some_beq {photoId : Int} {row : PhotoRow} :
    ∀ {db : List PhotoRow}, selectRow photoId db = some row →
    (row.id == photoId) = true := by
  intro db
  induction db with
  | nil => intro h; simp [selectRow] at h
  | cons r rest ih =>
    intro h
    rw [selectRow] at h
    by_cases hid : (r.id == photoId) = true
    · rw [if_pos hid] at h
      cases h
      exact hid
    · rw [if_neg hid] at h
      exact ih h

theorem selectRow_map (f : PhotoRow → PhotoRow) (hf : ∀ r, (f r).id = r.id)
    (photoId : Int) : ∀ db : List PhotoRow,
    selectRow photoId (db.map f) = (selectRow photoId db).map f := by
  intro db
  induction db with
  | nil => rfl
  | cons r rest ih =>
    simp only [List.map_cons, selectRow, hf r]
    by_cases hid : (r.id == photoId) = true
    · rw [if_pos hid, if_pos hid]; rfl
    · rw [if_neg hid, if_neg hid, ih]

theorem markErrorRow_id (photoId : Int) (reason : String) (attempt now : Int)
    (r : PhotoRow) : (markErrorRow photoId reason attempt now r).id = r.id := by
  unfold markErrorRow
  split_ifs <;> rfl

theorem commitRow_id (photoId : Int) (f : CommitFields) (r : PhotoRow) :
    (commitRow photoId f r).id = r.id := by
  unfold commitRow
  split_ifs <;> rfl

theorem markErrorRow_pa (photoId : Int) (reason : String) (attempt now : Int)
    (r : PhotoRow) :
    (markErrorRow photoId reason attempt now r).processed_attempt =
      if r.id == photoId then some (max (r.processed_attempt.getD 0) attempt)
      else r.processed_attempt := by
  unfold markErrorRow
  split_ifs <;> rfl

theorem commitRow_pa (photoId : Int) (f : CommitFields) (r : PhotoRow) :
    (commitRow photoId f r).processed_attempt =
      if commitCond photoId r then some (max (r.processed_attempt.getD 0) f.attempt)
      else r.processed_attempt := by
  unfold commitRow
  split_ifs <;> rfl

theorem markErrorRow_pa_mono (photoId : Int) (reason : String)
    (attempt now : Int) (r : PhotoRow) :
    r.processed_attempt.getD 0 ≤
      (markErrorRow photoId reason attempt now r).processed_attempt.getD 0 := by
  rw [markErrorRow_pa]
  split_ifs <;> simp [le_max_left]

theorem commitRow_pa_mono (photoId : Int) (f : CommitFields) (r : PhotoRow) :
    r.processed_attempt.getD 0 ≤
      (commitRow photoId f r).processed_attempt.getD 0 := by
  rw [commitRow_pa]
  split_ifs <;> simp [le_max_left]

theorem retryOrFail_resp (cfg : Config) (photoId attempt now : Int)
    (reason : String) (db : List PhotoRow) (effs : List Effect) :
    (retryOrFail cfg photoId attempt now reason db effs).resp =
      if attempt < cfg.maxAttempts then 500 else 204 := by
  unfold retryOrFail
  split_ifs <;> rfl

theorem processCaps_resp_eq (cfg : Config) (photoId attempt : Int) (env : Env)
    (bucketName : Option String) (dbWrite : List PhotoRow) :
    (processCaps cfg photoId attempt env bucketName dbWrite).resp =
      if capFail env = true ∧ attempt < cfg.maxAttempts then 500 else 204 := by
  obtain ⟨er, dr, xr, mr, tr, sr, tObj, now⟩ := env
  unfold processCaps capFail
  cases er with
  | error u => simp [retryOrFail_resp, apply_ite RunResult.resp]
  | ok ex =>
    cases ex <;> cases dr <;> cases mr <;> cases tr <;> cases sr <;>
      simp [retryOrFail_resp, apply_ite RunResult.resp]

theorem processPhoto_resp_eq (cfg : Config) (photoId attempt : Int) (env : Env)
    (dbLoad dbWrite : List PhotoRow) :
    (processPhoto cfg photoId attempt env dbLoad dbWrite).resp =
      if coreRetryable cfg photoId env dbLoad = true ∧ attempt < cfg.maxAttempts
      then 500 else 204 := by
  unfold processPhoto coreRetryable
  cases hrow : selectRow photoId dbLoad with
  | none => simp
  | some row =>
    by_cases hterm : (row.status == "PROCESSED" || row.status == "ERROR") = true
    · simp [hterm]
    · by_cases hnup : (row.status != "UPLOADED" || row.uploaded_at.isNone) = true
      · simp [hterm, hnup, retryOrFail_resp, apply_ite RunResult.resp]
      · by_cases hmiss :
          (strFalsy (bucketNameOf cfg row) || strFalsy row.gcs_object) = true
        · simp [hterm, hnup, hmiss]
        · simp [hterm, hnup, hmiss, processCaps_resp_eq]

theorem retryOrFail_db_cases (cfg : Config) (photoId attempt now : Int)
    (reason : String) (db : List PhotoRow) (effs : List Effect) :
    (retryOrFail cfg photoId attempt now reason db effs).db = db ∨
    (retryOrFail cfg photoId attempt now reason db effs).db =
      markError photoId reason attempt now db := by
  unfold retryOrFail
  split_ifs <;> simp

theorem processPhoto_none (cfg : Config) (photoId attempt : Int) (env : Env)
    (dbLoad dbWrite : List PhotoRow)
    (h : selectRow photoId dbLoad = none) :
    processPhoto cfg photoId attempt env dbLoad dbWrite =
      { resp := 204, db := dbWrite, effects := [.dbSelect] } := by
  unfold processPhoto
  rw [h]

theorem processPhoto_terminal (cfg : Config) (photoId attempt : Int) (env : Env)
    (dbLoad dbWrite : List PhotoRow) (row : PhotoRow)
    (h : selectRow photoId dbLoad = some row)
    (hterm : (row.status == "PROCESSED" || row.status == "ERROR") = true) :
    processPhoto cfg photoId attempt env dbLoad dbWrite =
      { resp := 204, db := dbWrite, effects := [.dbSelect] } := by
  unfold processPhoto
  rw [h]
  simp [hterm]

theorem processPhoto_not_uploaded (cfg : Config) (photoId attempt : Int)
    (env : Env) (dbLoad dbWrite : List PhotoRow) (row : PhotoRow)
    (h : selectRow photoId dbLoad = some row)
    (hterm : (row.status == "PROCESSED" || row.status == "ERROR") = false)
    (hnup : (row.status != "UPLOADED" || row.uploaded_at.isNone) = true) :
    processPhoto cfg photoId attempt env dbLoad dbWrite =
      retryOrFail cfg photoId attempt env.dbNow "row_not_uploaded" dbWrite
        [.dbSelect] := by
  unfold processPhoto
  rw [h]
  simp [hterm, hnup]

theorem processPhoto_missing_fields (cfg : Config) (photoId attempt : Int)
    (env : Env) (dbLoad dbWrite : List PhotoRow) (row : PhotoRow)
    (h : selectRow photoId dbLoad = some row)
    (hterm : (row.status == "PROCESSED" || row.status == "ERROR") = false)
    (hnup : (row.status != "UPLOADED" || row.uploaded_at.isNone) = false)
    (hmiss : (strFalsy (bucketNameOf cfg row) || strFalsy row.gcs_object) = true) :
    processPhoto cfg photoId attempt env dbLoad dbWrite =
      { resp := 204
        db := markError photoId "missing_gcs_fields" attempt env.dbNow dbWrite
        effects := [.dbSelect, .dbMarkError] } := by
  unfold processPhoto
  rw [h]
  simp [hterm, hnup, hmiss]

theorem processPhoto_caps (cfg : Config) (photoId attempt : Int) (env : Env)
    (dbLoad dbWrite : List PhotoRow) (row : PhotoRow)
    (h : selectRow photoId dbLoad = some row)
    (hterm : (row.status == "PROCESSED" || row.status == "ERROR") = false)
    (hnup : (row.status != "UPLOADED" || row.uploaded_at.isNone) = false)
    (hmiss : (strFalsy (bucketNameOf cfg row) || strFalsy row.gcs_object) = false) :
    processPhoto cfg photoId attempt env dbLoad dbWrite =
      processCaps cfg photoId attempt env (bucketNameOf cfg row) dbWrite := by
  unfold processPhoto
  rw [h]
  simp [hterm, hnup, hmiss]

theorem processCaps_all_ok (cfg : Config) (photoId attempt : Int) (env : Env)
    (bucketName : Option String) (dbWrite : List PhotoRow) (meta : SharpMeta)
    (hex : env.existsR = .ok true) (hdl : env.downloadR = .ok ())
    (hmt : env.metaR = .ok meta) (hth : env.thumbR = .ok ())
    (hsv : env.saveR = .ok ()) :
    processCaps cfg photoId attempt env bucketName dbWrite =
      { resp := 204
        db := commitUpdate photoId
          { exif_json := exifJsonOf env
            taken_at := takenAtOf env
            width := meta.width
            height := meta.height
            thumb_bucket := bucketName.getD ""
            thumb_object := env.thumbObject
            attempt := attempt
            now := env.dbNow } dbWrite
        effects := [.dbSelect, .gcsExists, .gcsDownload, .gcsSaveThumb,
          .dbCommit] } := by
  unfold processCaps
  rw [hex, hdl, hmt, hth, hsv]
  rfl

theorem processCaps_db_cases (cfg : Config) (photoId attempt : Int) (env : Env)
    (bucketName : Option String) (dbWrite : List PhotoRow) :
    (processCaps cfg photoId attempt env bucketName dbWrite).db = dbWrite ∨
    (∃ reason, (processCaps cfg photoId attempt env bucketName dbWrite).db =
        markError photoId reason attempt env.dbNow dbWrite) ∨
    (∃ f : CommitFields, f.attempt = attempt ∧
        (processCaps cfg photoId attempt env bucketName dbWrite).db =
          commitUpdate photoId f dbWrite) := by
  obtain ⟨er, dr, xr, mr, tr, sr, tObj, now⟩ := env
  unfold processCaps
  cases er <;> [skip; (rename_i ex; cases ex)] <;> cases dr <;> cases mr <;>
    cases tr <;> cases sr <;>
    simp only [Bool.not_true, Bool.not_false, if_true, if_false] <;>
    first
    | (rcases retryOrFail_db_cases cfg photoId attempt now "unhandled_exception"
          dbWrite [.dbSelect, .gcsExists] with h | h
       · exact Or.inl h
       · exact Or.inr (Or.inl ⟨_, h⟩))
    | (rcases retryOrFail_db_cases cfg photoId attempt now "gcs_object_missing"
          dbWrite [.dbSelect, .gcsExists] with h | h
       · exact Or.inl h
       · exact Or.inr (Or.inl ⟨_, h⟩))
    | (rcases retryOrFail_db_cases cfg photoId attempt now "unhandled_exception"
          dbWrite [.dbSelect, .gcsExists, .gcsDownload] with h | h
       · exact Or.inl h
       · exact Or.inr (Or.inl ⟨_, h⟩))
    | (rcases retryOrFail_db_cases cfg photoId attempt now "unhandled_exception"
          dbWrite [.dbSelect, .gcsExists, .gcsDownload, .gcsSaveThumb] with h | h
       · exact Or.inl h
       · exact Or.inr (Or.inl ⟨_, h⟩))
    | exact Or.inr (Or.inr ⟨_, rfl, rfl⟩)

theorem processPhoto_db_cases (cfg : Config) (photoId attempt : Int) (env : Env)
    (dbLoad dbWrite : List PhotoRow) :
    (processPhoto cfg photoId attempt env dbLoad dbWrite).db = dbWrite ∨
    (∃ reason, (processPhoto cfg photoId attempt env dbLoad dbWrite).db =
        markError photoId reason attempt env.dbNow dbWrite) ∨
    (∃ f : CommitFields, f.attempt = attempt ∧
        (processPhoto cfg photoId attempt env dbLoad dbWrite).db =
          commitUpdate photoId f dbWrite) := by
  cases hrow : selectRow photoId dbLoad with
  | none =>
    rw [processPhoto_none cfg photoId attempt env dbLoad dbWrite hrow]
    exact Or.inl rfl
  | some row =>
    by_cases hterm : (row.status == "PROCESSED" || row.status == "ERROR") = true
    · rw [processPhoto_terminal cfg photoId attempt env dbLoad dbWrite row hrow hterm]
      exact Or.inl rfl
    · rw [Bool.not_eq_true] at hterm
      by_cases hnup : (row.status != "UPLOADED" || row.uploaded_at.isNone) = true
      · rw [processPhoto_not_uploaded cfg photoId attempt env dbLoad dbWrite row
          hrow hterm hnup]
        rcases retryOrFail_db_cases cfg photoId attempt env.dbNow "row_not_uploaded"
          dbWrite [.dbSelect] with h | h
        · exact Or.inl h
        · exact Or.inr (Or.inl ⟨_, h⟩)
      · rw [Bool.not_eq_true] at hnup
        by_cases hmiss :
          (strFalsy (bucketNameOf cfg row) || strFalsy row.gcs_object) = true
        · rw [processPhoto_missing_fields cfg photoId attempt env dbLoad dbWrite row
            hrow hterm hnup hmiss]
          exact Or.inr (Or.inl ⟨_, rfl⟩)
        · rw [Bool.not_eq_true] at hmiss
          rw [processPhoto_caps cfg photoId attempt env dbLoad dbWrite row
            hrow hterm hnup hmiss]
          exact processCaps_db_cases cfg photoId attempt env (bucketNameOf cfg row) dbWrite

theorem paOf_map_le (f : PhotoRow → PhotoRow)
    (hf : ∀ r, r.processed_attempt.getD 0 ≤ (f r).processed_attempt.getD 0)
    (db : List PhotoRow) (i : Nat) :
    paOf db[i]? ≤ paOf (db.map f)[i]? := by
  rw [List.getElem?_map]
  cases db[i]? with
  | none => simp [paOf]
  | some r => simpa [paOf] using hf r

theorem map_eq_self_of {α : Type} (f : α → α) :
    ∀ l : List α, (∀ a ∈ l, f a = a) → l.map f = l := by
  intro l
  induction l with
  | nil => intro h; rfl
  | cons a t ih =>
    intro h
    simp only [List.map_cons, h a (by simp)]
    rw [ih fun b hb => h b (by simp [hb])]

theorem commitUpdate_of_zero (photoId : Int) (f : CommitFields)
    (db : List PhotoRow) (hzero : commitRowCount photoId db = 0) :
    commitUpdate photoId f db = db := by
  unfold commitUpdate
  have hall : ∀ r ∈ db, ¬ commitCond photoId r :=
    List.countP_eq_zero.mp hzero
  refine map_eq_self_of _ db fun r hr => ?_
  unfold commitRow
  rw [if_neg (hall r hr)]

theorem tasksProcess_resp_eq (cfg : Config) (req : ReqModel) (env : Env)
    (db : List PhotoRow) :
    (tasksProcess cfg req env db).resp =
      if retryableFailure cfg req env db = true ∧ jobAttempt req < cfg.maxAttempts
      then 500 else 204 := by
  obtain ⟨envR, ha⟩ := req
  cases envR with
  | error u => simp [tasksProcess, retryableFailure, jobAttempt]
  | ok ed =>
    obtain ⟨da, pr⟩ := ed
    cases pr with
    | error u => simp [tasksProcess, retryableFailure, jobAttempt]
    | ok idOpt =>
      cases idOpt with
      | none => simp [tasksProcess, retryableFailure, jobAttempt]
      | some pid =>
        simp [tasksProcess, retryableFailure, jobAttempt, processPhoto_resp_eq]

/-! The claims. -/

/-- C1: the success commit is a single conditional update matched on id,
status UPLOADED and non-null uploadedAt, with the guard evaluated in the
same operation as the write: rows failing the guard are never touched by
it; and whenever the state the commit runs against contains zero rows
satisfying the guard, the invocation acknowledges with 204, leaves the
table entirely unchanged, and has run each side-effecting step exactly
once, the commit being the last — in particular it re-runs nothing and
writes no error. -/
theorem commit_conditional_zero_rows_ack (cfg : Config)
    (photoId attempt : Int) (env : Env) (dbLoad dbWrite : List PhotoRow)
    (row : PhotoRow) (meta : SharpMeta)
    (hrow : selectRow photoId dbLoad = some row)
    (hst : row.status = "UPLOADED")
    (hup : row.uploaded_at.isSome = true)
    (hbo : strFalsy (bucketNameOf cfg row) = false)
    (hpo : strFalsy row.gcs_object = false)
    (hex : env.existsR = .ok true) (hdl : env.downloadR = .ok ())
    (hmt : env.metaR = .ok meta) (hth : env.thumbR = .ok ())
    (hsv : env.saveR = .ok ())
    (hzero : commitRowCount photoId dbWrite = 0) :
    (∀ f r, commitCond photoId r = false → commitRow photoId f r = r) ∧
    processPhoto cfg photoId attempt env dbLoad dbWrite =
      { resp := 204, db := dbWrite
        effects := [.dbSelect, .gcsExists, .gcsDownload, .gcsSaveThumb,
          .dbCommit] } := by
  constructor
  · intro f r h
    unfold commitRow
    rw [if_neg]
    simp [h]
  · have hterm : (row.status == "PROCESSED" || row.status == "ERROR") = false := by
      simp [hst]
    have hnup : (row.status != "UPLOADED" || row.uploaded_at.isNone) = false := by
      rcases Option.isSome_iff_exists.mp hup with ⟨u, hu⟩
      simp [hst, hu]
    have hmiss : (strFalsy (bucketNameOf cfg row) || strFalsy row.gcs_object)
        = false := by
      simp [hbo, hpo]
    rw [processPhoto_caps cfg photoId attempt env dbLoad dbWrite row
      hrow hterm hnup hmiss]
    rw [processCaps_all_ok cfg photoId attempt env (bucketNameOf cfg row)
      dbWrite meta hex hdl hmt hth hsv]
    rw [commitUpdate_of_zero photoId _ dbWrite hzero]

/-- C1 witness: with a load snapshot holding record 42 in UPLOADED status
but a write snapshot in which it is already PROCESSED (zero rows satisfy
the commit guard), the invocation acknowledges and changes nothing. -/
theorem commit_conditional_zero_rows_ack_witness :
    (∀ f r, commitCond 42 r = false → commitRow 42 f r = r) ∧
    processPhoto cfgX 42 1 envOK [rowU] [rowP] =
      { resp := 204, db := [rowP]
        effects := [.dbSelect, .gcsExists, .gcsDownload, .gcsSaveThumb,
          .dbCommit] } :=
  commit_conditional_zero_rows_ack cfgX 42 1 envOK [rowU] [rowP] rowU
    { width := some 800, height := some 600 }
    rfl rfl rfl rfl rfl rfl rfl rfl rfl rfl (by decide)

/-- C2: a job whose loaded record is already PROCESSED or ERROR is
acknowledged immediately; the only side-effecting call of the invocation
is the load itself — no blob-store call, no record-store mutation, the
table is returned unchanged. -/
theorem terminal_status_acks_untouched (cfg : Config) (photoId attempt : Int)
    (env : Env) (db : List PhotoRow) (row : PhotoRow)
    (hrow : selectRow photoId db = some row)
    (hterm : row.status = "PROCESSED" ∨ row.status = "ERROR") :
    processPhoto cfg photoId attempt env db db =
      { resp := 204, db := db, effects := [.dbSelect] } := by
  apply processPhoto_terminal cfg photoId attempt env db db row hrow
  rcases hterm with h | h <;> simp [h]

/-- C2 witness: processing record 42 when it is already PROCESSED
acknowledges and performs only the load. -/
theorem terminal_status_acks_untouched_witness :
    processPhoto cfgX 42 3 envOK [rowP] [rowP] =
      { resp := 204, db := [rowP], effects := [.dbSelect] } :=
  terminal_status_acks_untouched cfgX 42 3 envOK [rowP] rowP rfl (Or.inl rfl)

/-- C3: on a retryable failure, if the delivery attempt is below
MAX_ATTEMPTS the outcome is the 500 retry signal with no record-store
mutation; at or above the cap, the record is marked ERROR — status
overwritten, the reason truncated to 300 characters, the attempt folded
into `processed_attempt` — and the outcome is the 204 acknowledge, so no
further retry is requested. -/
theorem retryable_failure_cap_policy (cfg : Config) (photoId attempt now : Int)
    (reason : String) (db : List PhotoRow) (effs : List Effect) :
    (attempt < cfg.maxAttempts →
      retryOrFail cfg photoId attempt now reason db effs =
        { resp := 500, db := db, effects := effs }) ∧
    (cfg.maxAttempts ≤ attempt →
      retryOrFail cfg photoId attempt now reason db effs =
        { resp := 204, db := markError photoId reason attempt now db
          effects := effs ++ [.dbMarkError] } ∧
      (∀ r, (r.id == photoId) = true →
        markErrorRow photoId reason attempt now r =
          { r with
            status := "ERROR"
            error_reason := some (truncate reason 300)
            error_at := some now
            processed_attempt :=
              some (max (r.processed_attempt.getD 0) attempt) })) := by
  constructor
  · intro h
    unfold retryOrFail
    rw [if_pos h]
  · intro h
    constructor
    · unfold retryOrFail
      rw [if_neg (not_lt.mpr h)]
    · intro r hr
      unfold markErrorRow
      rw [if_pos hr]

/-- C3 witness: a retryable failure at attempt 1 with the cap at 5 yields
the 500 retry signal and an unchanged table. -/
theorem retryable_failure_cap_policy_witness :
    retryOrFail cfgX 42 1 5000 "gcs_object_missing" [rowU] [.dbSelect] =
      { resp := 500, db := [rowU], effects := [.dbSelect] } :=
  (retryable_failure_cap_policy cfgX 42 1 5000 "gcs_object_missing" [rowU]
    [.dbSelect]).1 (by decide)

/-- C4: a single fully successful invocation on a valid UPLOADED record
(non-null uploadedAt, location present, every capability succeeding with
dimensions reported) acknowledges and leaves the record PROCESSED with
non-null processedAt, the reported width and height, `processed_attempt`
raised to the attempt (kept when the stored value was greater), and the
error fields cleared. -/
theorem success_commit_fields (cfg : Config) (photoId attempt : Int)
    (env : Env) (db : List PhotoRow) (row : PhotoRow) (w h : Int)
    (hrow : selectRow photoId db = some row)
    (hst : row.status = "UPLOADED")
    (hup : row.uploaded_at.isSome = true)
    (hbo : strFalsy (bucketNameOf cfg row) = false)
    (hpo : strFalsy row.gcs_object = false)
    (hex : env.existsR = .ok true) (hdl : env.downloadR = .ok ())
    (hmt : env.metaR = .ok { width := some w, height := some h })
    (hth : env.thumbR = .ok ()) (hsv : env.saveR = .ok ()) :
    (processPhoto cfg photoId attempt env db db).resp = 204 ∧
    ∃ row', selectRow photoId (processPhoto cfg photoId attempt env db db).db =
        some row' ∧
      row'.status = "PROCESSED" ∧
      row'.processed_at = some env.dbNow ∧
      row'.width = some w ∧
      row'.height = some h ∧
      row'.processed_attempt = some (max (row.processed_attempt.getD 0) attempt) ∧
      (row.processed_attempt.getD 0 ≤ attempt →
        row'.processed_attempt = some attempt) ∧
      row'.error_reason = none ∧
      row'.error_at = none := by
  have hbq := selectRow_some_beq hrow
  have hterm : (row.status == "PROCESSED" || row.status == "ERROR") = false := by
    simp [hst]
  have hnup : (row.status != "UPLOADED" || row.uploaded_at.isNone) = false := by
    rcases Option.isSome_iff_exists.mp hup with ⟨u, hu⟩
    simp [hst, hu]
  have hmiss : (strFalsy (bucketNameOf cfg row) || strFalsy row.gcs_object)
      = false := by
    simp [hbo, hpo]
  have hcond : commitCond photoId row = true := by
    simp [commitCond, hbq, hst, hup]
  rw [processPhoto_caps cfg photoId attempt env db db row hrow hterm hnup hmiss,
    processCaps_all_ok cfg photoId attempt env (bucketNameOf cfg row) db
      { width := some w, height := some h } hex hdl hmt hth hsv]
  refine ⟨rfl, commitRow photoId
    { exif_json := exifJsonOf env, taken_at := takenAtOf env
      width := some w, height := some h
      thumb_bucket := (bucketNameOf cfg row).getD ""
      thumb_object := env.thumbObject, attempt := attempt, now := env.dbNow }
    row, ?_, ?_⟩
  · unfold commitUpdate
    rw [selectRow_map _ (commitRow_id photoId _) photoId db, hrow]
    rfl
  · unfold commitRow
    rw [if_pos hcond]
    refine ⟨rfl, rfl, rfl, rfl, rfl, ?_, rfl, rfl⟩
    intro hle
    simp [max_eq_right hle]

/-- C4 witness: processing the UPLOADED record 42 at attempt 1 with all
capabilities succeeding commits PROCESSED with width 800, height 600,
processedAt set, attempt 1, and clear error fields. -/
theorem success_commit_fields_witness :
    (processPhoto cfgX 42 1 envOK [rowU] [rowU]).resp = 204 ∧
    ∃ row', selectRow 42 (processPhoto cfgX 42 1 envOK [rowU] [rowU]).db =
        some row' ∧
      row'.status = "PROCESSED" ∧
      row'.processed_at = some envOK.dbNow ∧
      row'.width = some 800 ∧
      row'.height = some 600 ∧
      row'.processed_attempt = some (max (rowU.processed_attempt.getD 0) 1) ∧
      (rowU.processed_attempt.getD 0 ≤ 1 → row'.processed_attempt = some 1) ∧
      row'.error_reason = none ∧
      row'.error_at = none :=
  success_commit_fields cfgX 42 1 envOK [rowU] rowU 800 600
    rfl rfl rfl rfl rfl rfl rfl rfl rfl rfl

/-- C5: a payload that fails decoding — zod rejecting the envelope, the
embedded message failing base64/JSON decoding, or a non-numeric photo id —
is acknowledged with 204, the table is returned unchanged, and the
side-effect trace is empty: the record store is never touched. -/
theorem decode_failure_acks_without_db (cfg : Config) (env : Env)
    (db : List PhotoRow) :
    (∀ ha, tasksProcess cfg { envelopeR := .error (), headerAttempt := ha }
        env db = { resp := 204, db := db, effects := [] }) ∧
    (∀ ha da, tasksProcess cfg
        { envelopeR := .ok { deliveryAttempt := da, payloadR := .error () }
          headerAttempt := ha } env db =
        { resp := 204, db := db, effects := [] }) ∧
    (∀ ha da, tasksProcess cfg
        { envelopeR := .ok { deliveryAttempt := da, payloadR := .ok none }
          headerAttempt := ha } env db =
        { resp := 204, db := db, effects := [] }) :=
  ⟨fun _ => rfl, fun _ _ => rfl, fun _ _ => rfl⟩

/-- C6: a loaded UPLOADED record whose resolved bucket or object path is
falsy is treated as a data-integrity failure: for every attempt number —
the counter is never consulted — the record is marked ERROR through the
unconditional error update with reason `missing_gcs_fields`, the
invocation acknowledges with 204, and no blob-store call appears in the
trace. -/
theorem missing_location_marks_error_acks (cfg : Config)
    (photoId attempt : Int) (env : Env) (db : List PhotoRow) (row : PhotoRow)
    (hrow : selectRow photoId db = some row)
    (hst : row.status = "UPLOADED")
    (hup : row.uploaded_at.isSome = true)
    (hmiss : (strFalsy (bucketNameOf cfg row) || strFalsy row.gcs_object)
      = true) :
    processPhoto cfg photoId attempt env db db =
      { resp := 204
        db := markError photoId "missing_gcs_fields" attempt env.dbNow db
        effects := [.dbSelect, .dbMarkError] } ∧
    (∀ r, (r.id == photoId) = true →
      (markErrorRow photoId "missing_gcs_fields" attempt env.dbNow r).status =
        "ERROR" ∧
      (markErrorRow photoId "missing_gcs_fields" attempt env.dbNow r).error_reason
        = some "missing_gcs_fields") := by
  have hterm : (row.status == "PROCESSED" || row.status == "ERROR") = false := by
    simp [hst]
  have hnup : (row.status != "UPLOADED" || row.uploaded_at.isNone) = false := by
    rcases Option.isSome_iff_exists.mp hup with ⟨u, hu⟩
    simp [hst, hu]
  refine ⟨processPhoto_missing_fields cfg photoId attempt env db db row
    hrow hterm hnup hmiss, ?_⟩
  intro r hr
  unfold markErrorRow
  rw [if_pos hr]
  exact ⟨rfl, rfl⟩

/-- C6 witness: record 42 in UPLOADED status with a null object path is
marked ERROR and acknowledged at attempt 1 (below the cap), with only the
load and the error write in the trace. -/
theorem missing_location_marks_error_acks_witness :
    processPhoto cfgX 42 1 envOK [rowNoObj] [rowNoObj] =
      { resp := 204
        db := markError 42 "missing_gcs_fields" 1 envOK.dbNow [rowNoObj]
        effects := [.dbSelect, .dbMarkError] } ∧
    (∀ r, (r.id == 42) = true →
      (markErrorRow 42 "missing_gcs_fields" 1 envOK.dbNow r).status = "ERROR" ∧
      (markErrorRow 42 "missing_gcs_fields" 1 envOK.dbNow r).error_reason =
        some "missing_gcs_fields") :=
  missing_location_marks_error_acks cfgX 42 1 envOK [rowNoObj] rowNoObj
    rfl rfl rfl rfl

/-- C7: `processed_attempt` is monotonically non-decreasing across every
record-store mutation an invocation performs: at every index of the table
the value after the invocation is at least the value before; and the
per-row effect of both the ERROR-marking update and the success commit
sets it to the greater of the stored value and the current attempt on the
rows they match, leaving it untouched elsewhere — so a late-arriving
lower-attempt duplicate can never regress it. -/
theorem processed_attempt_monotone (cfg : Config) (photoId attempt : Int)
    (env : Env) (dbLoad dbWrite : List PhotoRow) :
    (∀ i : Nat, paOf dbWrite[i]? ≤
        paOf ((processPhoto cfg photoId attempt env dbLoad dbWrite).db)[i]?) ∧
    (∀ reason : String, ∀ now : Int, ∀ r : PhotoRow,
      (markErrorRow photoId reason attempt now r).processed_attempt =
        if r.id == photoId then some (max (r.processed_attempt.getD 0) attempt)
        else r.processed_attempt) ∧
    (∀ f : CommitFields, ∀ r : PhotoRow,
      (commitRow photoId f r).processed_attempt =
        if commitCond photoId r then
          some (max (r.processed_attempt.getD 0) f.attempt)
        else r.processed_attempt) := by
  refine ⟨?_, fun reason now r => markErrorRow_pa photoId reason attempt now r,
    fun f r => commitRow_pa photoId f r⟩
  intro i
  rcases processPhoto_db_cases cfg photoId attempt env dbLoad dbWrite with
    h | ⟨reason, h⟩ | ⟨f, hfa, h⟩
  · rw [h]
  · rw [h]
    unfold markError
    exact paOf_map_le _ (markErrorRow_pa_mono photoId reason attempt env.dbNow)
      dbWrite i
  · rw [h]
    unfold commitUpdate
    exact paOf_map_le _ (commitRow_pa_mono photoId f) dbWrite i

/-- C8: every invocation of the endpoint terminates in exactly one of the
two transport signals — 204 (acknowledge) or 500 (retry) — and the 500
retry signal is returned precisely when a retryable failure occurs and
the resolved delivery attempt is below MAX_ATTEMPTS; every other case,
including decode failures, missing rows, idempotent skips, data-integrity
errors and capped give-ups, acknowledges. -/
theorem endpoint_signal_classification (cfg : Config) (req : ReqModel)
    (env : Env) (db : List PhotoRow) :
    ((tasksProcess cfg req env db).resp = 204 ∨
      (tasksProcess cfg req env db).resp = 500) ∧
    ((tasksProcess cfg req env db).resp = 500 ↔
      (retryableFailure cfg req env db = true ∧
        jobAttempt req < cfg.maxAttempts)) := by
  rw [tasksProcess_resp_eq]
  constructor
  · split_ifs <;> simp
  · split_ifs with hc <;> simp [hc]

/-- C9: when EXIF extraction throws, the pipeline is not aborted: with the
remaining capabilities succeeding on a valid UPLOADED record, the
invocation still acknowledges and commits the record as PROCESSED, with
null stored metadata and null capture timestamp. -/
theorem exif_failure_nonfatal (cfg : Config) (photoId attempt : Int)
    (env : Env) (db : List PhotoRow) (row : PhotoRow) (meta : SharpMeta)
    (hrow : selectRow photoId db = some row)
    (hst : row.status = "UPLOADED")
    (hup : row.uploaded_at.isSome = true)
    (hbo : strFalsy (bucketNameOf cfg row) = false)
    (hpo : strFalsy row.gcs_object = false)
    (hxf : env.exifR = .error ())
    (hex : env.existsR = .ok true) (hdl : env.downloadR = .ok ())
    (hmt : env.metaR = .ok meta)
    (hth : env.thumbR = .ok ()) (hsv : env.saveR = .ok ()) :
    (processPhoto cfg photoId attempt env db db).resp = 204 ∧
    ∃ row', selectRow photoId (processPhoto cfg photoId attempt env db db).db =
        some row' ∧
      row'.status = "PROCESSED" ∧
      row'.exif_json = none ∧
      row'.taken_at = none := by
  have hbq := selectRow_some_beq hrow
  have hterm : (row.status == "PROCESSED" || row.status == "ERROR") = false := by
    simp [hst]
  have hnup : (row.status != "UPLOADED" || row.uploaded_at.isNone) = false := by
    rcases Option.isSome_iff_exists.mp hup with ⟨u, hu⟩
    simp [hst, hu]
  have hmiss : (strFalsy (bucketNameOf cfg row) || strFalsy row.gcs_object)
      = false := by
    simp [hbo, hpo]
  have hcond : commitCond photoId row = true := by
    simp [commitCond, hbq, hst, hup]
  rw [processPhoto_caps cfg photoId attempt env db db row hrow hterm hnup hmiss,
    processCaps_all_ok cfg photoId attempt env (bucketNameOf cfg row) db
      meta hex hdl hmt hth hsv]
  refine ⟨rfl, commitRow photoId
    { exif_json := exifJsonOf env, taken_at := takenAtOf env
      width := meta.width, height := meta.height
      thumb_bucket := (bucketNameOf cfg row).getD ""
      thumb_object := env.thumbObject, attempt := attempt, now := env.dbNow }
    row, ?_, ?_⟩
  · unfold commitUpdate
    rw [selectRow_map _ (commitRow_id photoId _) photoId db, hrow]
    rfl
  · unfold commitRow
    rw [if_pos hcond]
    refine ⟨rfl, ?_, ?_⟩
    · show exifJsonOf env = none
      unfold exifJsonOf
      rw [hxf]
    · show takenAtOf env = none
      unfold takenAtOf
      rw [hxf]

/-- C9 witness: record 42 processed with a throwing EXIF extractor still
commits PROCESSED, with null metadata and null capture timestamp. -/
theorem exif_failure_nonfatal_witness :
    (processPhoto cfgX 42 1 envExifFail [rowU] [rowU]).resp = 204 ∧
    ∃ row', selectRow 42 (processPhoto cfgX 42 1 envExifFail [rowU] [rowU]).db =
        some row' ∧
      row'.status = "PROCESSED" ∧
      row'.exif_json = none ∧
      row'.taken_at = none :=
  exif_failure_nonfatal cfgX 42 1 envExifFail [rowU] rowU
    { width := some 800, height := some 600 }
    rfl rfl rfl rfl rfl rfl rfl rfl rfl rfl rfl

/-- C10: the ERROR-marking update matches rows by id alone and carries no
status condition: a matched row in any status — including PROCESSED — has
its status overwritten to ERROR, and unmatched rows are untouched; by
contrast the guarded success commit leaves a PROCESSED row unchanged, so
only the load-time terminal-state guard protects terminal states from the
error write. -/
theorem markError_matches_id_only (photoId : Int) (reason : String)
    (attempt now : Int) :
    (∀ r, (r.id == photoId) = false →
      markErrorRow photoId reason attempt now r = r) ∧
    (∀ r, (r.id == photoId) = true →
      (markErrorRow photoId reason attempt now r).status = "ERROR") ∧
    (∀ f : CommitFields, ∀ r : PhotoRow, r.status = "PROCESSED" →
      commitRow photoId f r = r) := by
  refine ⟨?_, ?_, ?_⟩
  · intro r hr
    unfold markErrorRow
    rw [if_neg (by simp [hr])]
  · intro r hr
    unfold markErrorRow
    rw [if_pos hr]
  · intro f r hr
    unfold commitRow
    rw [if_neg (by simp [commitCond, hr])]

/-- C10 witness: the error update applied to the PROCESSED record 42
overwrites its status to ERROR, while the guarded success commit leaves
the same PROCESSED record unchanged. -/
theorem markError_matches_id_only_witness :
    (markErrorRow 42 "late_failure" 3 9000 rowP).status = "ERROR" ∧
    commitRow 42
      { exif_json := none, taken_at := none, width := none, height := none
        thumb_bucket := "b", thumb_object := "t", attempt := 3, now := 9000 }
      rowP = rowP :=
  ⟨(markError_matches_id_only 42 "late_failure" 3 9000).2.1 rowP rfl,
    (markError_matches_id_only 42 "late_failure" 3 9000).2.2 _ rowP rfl⟩

end PhotoSearch
